import Mathlib

/-!
Verification of the detection-announcement coordinator of the blindvision-assist
repository (src/components/ObjectDetector.tsx).

The component's state hooks, its speech channel (speak, lines 77-102), its
detection cycle (detectObjects, lines 289-387), its start/stop toggle
(toggleDetection, lines 390-412) and its timer usage are shallowly embedded
below.  React state updates are modelled as immediate functional state updates
on explicit state records; browser timers (setInterval / setTimeout) are
modelled as explicit pending-timer data fired by an explicit scheduler; the
asynchronous pipeline call is modelled by passing the call's settled result
(Except for throw/reject) into the cycle function, and, for the concurrency
analysis, by splitting the cycle at its await point into a start event and a
settle event.  Scores are rationals (the source compares them only with >=).
-/

namespace BlindVision

/-- Axis-aligned box of a detection, source-frame pixel coordinates
(interface Detection, lines 8-17). -/
structure Box where
  xmin : ℚ
  ymin : ℚ
  xmax : ℚ
  ymax : ℚ
  deriving DecidableEq

/-- One scored, labelled detection as returned by the pipeline
(interface Detection, lines 8-17). -/
structure Detection where
  label : String
  score : ℚ
  box : Box
  deriving DecidableEq

/-- State owned by the speech channel: the speechEnabled useState (line 25),
the isSpeaking useState (line 21) and the lastSpokenRef ref (line 35). -/
structure SpeechState where
  speechEnabled : Bool
  isSpeaking : Bool
  lastSpoken : String
  deriving DecidableEq

/-- The speak function, lines 77-102: returns early when speech is disabled,
when an utterance is in flight, or when the text equals the last spoken text;
otherwise records the text as last spoken, sets the speaking flag and starts
the utterance.  The second component lists the utterances actually handed to
speechSynthesis.speak by this call (empty or a singleton). -/
def speak (s : SpeechState) (text : String) : SpeechState × List String :=
  if !s.speechEnabled || s.isSpeaking then (s, [])
  else if text = s.lastSpoken then (s, [])
  else ({ s with isSpeaking := true, lastSpoken := text }, [text])

/-- Outcome of an utterance: its onend handler or its onerror handler runs. -/
inductive SpeechOutcome
  | success
  | failure
  deriving DecidableEq

/-- Grace window of the onend handler, line 92-94: a 2000 ms setTimeout
clearing lastSpokenRef. -/
def GRACE_MS : Nat := 2000

/-- Completion of the active utterance, lines 90-99.  On success the onend
handler clears the speaking flag and schedules a GRACE_MS timeout that clears
the last-spoken memo; on failure the onerror handler clears the speaking flag
only.  First component: the state right after the handler ran; second
component: the state once the grace window has also elapsed. -/
def completeUtterance (s : SpeechState) (o : SpeechOutcome) : SpeechState × SpeechState :=
  match o with
  | .success => ({ s with isSpeaking := false }, { s with isSpeaking := false, lastSpoken := "" })
  | .failure => ({ s with isSpeaking := false }, { s with isSpeaking := false })

/-- The static label-to-description table of getObjectDescription,
lines 153-235. -/
def descriptions : List (String × String) := [
  ("person", "A person is detected in your view. This is a human being who may be walking, standing, or moving around in your immediate area."),
  ("bicycle", "A bicycle is detected nearby. This is a two-wheeled pedal-powered vehicle used for transportation, exercise, or recreation."),
  ("car", "A car is present in the scene. This is a four-wheeled motor vehicle designed for passenger transportation on roads."),
  ("motorcycle", "A motorcycle is visible. This is a two-wheeled motor vehicle that provides faster transportation than bicycles but requires more skill to operate."),
  ("airplane", "An airplane is visible in the sky above. This is a powered aircraft with wings that flies through the air for transportation."),
  ("bus", "A bus is nearby. This is a large motor vehicle designed to carry many passengers, often used for public transportation."),
  ("train", "A train is detected. This is a series of connected rail cars that travel on tracks, used for transporting passengers or cargo over long distances."),
  ("truck", "A truck is present. This is a large motor vehicle designed primarily for transporting goods and materials rather than passengers."),
  ("boat", "A boat is visible on the water. This is a watercraft used for traveling across rivers, lakes, or oceans for transportation or recreation."),
  ("traffic light", "A traffic light is ahead of you. This is a signaling device that uses colored lights - red, yellow, and green - to control traffic flow at intersections."),
  ("fire hydrant", "A fire hydrant is located nearby. This is a water supply point that firefighters connect their hoses to when fighting fires."),
  ("stop sign", "A stop sign is visible. This is a red, octagonal traffic sign that requires all vehicles to come to a complete stop before proceeding."),
  ("parking meter", "A parking meter is present. This is a device that collects payment for parking in designated spaces, usually found on city streets."),
  ("bench", "A bench is in your vicinity. This is outdoor seating furniture, typically made of wood or metal, found in parks, bus stops, or public spaces."),
  ("bird", "A bird is detected in the area. This is a feathered animal with wings that can fly, and it is part of the local wildlife around you."),
  ("cat", "A cat is present nearby. This is a small, domesticated feline animal often kept as a pet, known for its independence and agility."),
  ("dog", "A dog is detected in the area. This is a domesticated canine animal, commonly kept as a companion pet and known for loyalty to humans."),
  ("horse", "A horse is visible. This is a large, four-legged mammal historically used for riding, pulling carts, and farm work."),
  ("sheep", "A sheep is in the scene. This is a woolly farm animal raised primarily for its wool, meat, and sometimes milk."),
  ("cow", "A cow is present. This is a large farm animal, a bovine mammal raised for milk production, meat, and leather."),
  ("elephant", "An elephant is detected. This is the largest land mammal, with a long trunk, large ears, and tusks, native to Africa and Asia."),
  ("bear", "A bear is visible - exercise caution. This is a large, powerful mammal that can be dangerous. Keep your distance and avoid sudden movements."),
  ("zebra", "A zebra is in view. This is a horse-like African mammal with distinctive black and white stripes covering its entire body."),
  ("giraffe", "A giraffe is detected. This is the tallest mammal in the world, with an extremely long neck and legs, native to African savannas."),
  ("backpack", "A backpack is nearby. This is a bag with shoulder straps designed to be carried on someone\x27s back, used for carrying personal items, books, or hiking gear."),
  ("umbrella", "An umbrella is present. This is a portable shelter consisting of a circular canopy on a folding frame, used for protection from rain or sun."),
  ("handbag", "A handbag is visible. This is a bag, typically carried by hand or over the shoulder, used for carrying personal items like wallets, keys, and phones."),
  ("tie", "A necktie is detected. This is a formal accessory worn around the neck, typically by men with dress shirts for business or formal occasions."),
  ("suitcase", "A suitcase is present. This is a rectangular traveling case with a handle, used for packing clothes and personal items when traveling."),
  ("frisbee", "A frisbee is nearby. This is a disc-shaped toy that is thrown and caught for recreation, often used in parks or beaches."),
  ("skis", "Skis are visible. These are long, narrow boards attached to boots for gliding over snow, used in winter sports and recreation."),
  ("snowboard", "A snowboard is detected. This is a wide board used for descending snow-covered slopes, similar to surfing but on snow."),
  ("sports ball", "A sports ball is in view. This is a round object used in various sports and games, could be a basketball, soccer ball, or similar."),
  ("kite", "A kite is visible. This is a lightweight object designed to fly in the wind, often diamond-shaped and controlled by a string from the ground."),
  ("baseball bat", "A baseball bat is nearby. This is a wooden or metal club used in baseball to hit the ball, typically about three feet long."),
  ("baseball glove", "A baseball glove is present. This is a leather mitt worn on the hand to catch and field baseballs during the game."),
  ("skateboard", "A skateboard is detected. This is a board with four wheels used for transportation and performing tricks, popular among youth."),
  ("surfboard", "A surfboard is visible. This is a long board used for riding ocean waves, a key piece of equipment in the sport of surfing."),
  ("tennis racket", "A tennis racket is nearby. This is a stringed paddle used to hit tennis balls, consisting of a handle and an oval head with strings."),
  ("bottle", "A bottle is present. This is a container, typically made of glass or plastic, used for storing and drinking liquids like water or beverages."),
  ("wine glass", "A wine glass is visible. This is a stemmed glass specifically designed for drinking wine, with a bowl, stem, and base."),
  ("cup", "A cup is detected. This is a small, open container used for drinking hot or cold beverages like coffee, tea, or water."),
  ("fork", "A fork is nearby. This is an eating utensil with two or more prongs, used for picking up and eating solid food."),
  ("knife", "A knife is present. This is a cutting tool with a sharp blade, used for cutting food during meals or food preparation."),
  ("spoon", "A spoon is visible. This is an eating utensil with a shallow bowl shape, used for eating liquids, soups, or soft foods."),
  ("bowl", "A bowl is detected. This is a round, deep container used for holding and eating food, especially soups, cereals, or salads."),
  ("banana", "A banana is present. This is a yellow, curved tropical fruit that is sweet, nutritious, and high in potassium and energy."),
  ("apple", "An apple is visible. This is a round fruit, typically red or green, that is sweet, crunchy, and rich in vitamins and fiber."),
  ("sandwich", "A sandwich is nearby. This is a food item consisting of ingredients like meat, cheese, or vegetables placed between slices of bread."),
  ("orange", "An orange is detected. This is a round, orange-colored citrus fruit that is juicy, sweet, and high in vitamin C."),
  ("broccoli", "Broccoli is in view. This is a green vegetable with a tree-like appearance, known for being very nutritious and high in vitamins."),
  ("carrot", "A carrot is present. This is an orange root vegetable that is long and tapered, sweet in taste and rich in beta-carotene."),
  ("hot dog", "A hot dog is visible. This is a cooked sausage typically served in a split bun with various condiments like mustard or ketchup."),
  ("pizza", "Pizza is detected. This is an Italian dish consisting of a flat bread base topped with tomato sauce, cheese, and various toppings."),
  ("donut", "A donut is nearby. This is a sweet, fried pastry with a ring shape, often glazed or covered with sugar and various toppings."),
  ("cake", "A cake is present. This is a sweet baked dessert, often layered and decorated with frosting, typically served at celebrations."),
  ("chair", "A chair is visible. This is a piece of furniture designed for one person to sit on, with a back support and usually four legs."),
  ("couch", "A couch is detected. This is upholstered furniture designed for multiple people to sit on, also called a sofa, commonly found in living rooms."),
  ("potted plant", "A potted plant is nearby. This is vegetation growing in a container or pot, used for decoration or air purification indoors."),
  ("bed", "A bed is present. This is furniture designed for sleeping and resting, typically consisting of a mattress on a frame with pillows."),
  ("dining table", "A dining table is visible. This is furniture used for eating meals, where people sit around to share food and conversation."),
  ("toilet", "A toilet is detected. This is a plumbing fixture used for waste disposal, typically found in bathrooms and restrooms."),
  ("tv", "A television is nearby. This is an electronic device with a screen that displays video content, news, movies, and entertainment programs."),
  ("laptop", "A laptop is present. This is a portable computer that can be folded shut, allowing you to work, browse internet, or watch videos anywhere."),
  ("mouse", "A computer mouse is visible. This is a pointing device used to control the cursor on a computer screen by moving it on a surface."),
  ("remote", "A remote control is detected. This is a handheld device used to operate electronic equipment like televisions or stereos from a distance."),
  ("keyboard", "A keyboard is nearby. This is an input device with keys for typing letters, numbers, and commands into a computer or device."),
  ("cell phone", "A cell phone is present. This is a mobile communication device that allows you to make calls, send messages, and access the internet."),
  ("microwave", "A microwave is visible. This is a kitchen appliance that heats food quickly using electromagnetic waves called microwaves."),
  ("oven", "An oven is detected. This is a kitchen appliance used for baking, roasting, or heating food using dry heat in an enclosed space."),
  ("toaster", "A toaster is nearby. This is a small kitchen appliance designed to brown bread slices by exposing them to radiant heat."),
  ("sink", "A sink is present. This is a basin with faucets used for washing dishes, hands, or food preparation in kitchens and bathrooms."),
  ("refrigerator", "A refrigerator is visible. This is a large kitchen appliance that keeps food and beverages cold and fresh for longer storage."),
  ("book", "A book is detected. This is a bound collection of printed pages containing written content like stories, information, or knowledge."),
  ("clock", "A clock is nearby. This is a device that displays the current time, helping people keep track of hours and minutes throughout the day."),
  ("vase", "A vase is present. This is a decorative container, often made of glass or ceramic, typically used for holding flowers or as decoration."),
  ("scissors", "Scissors are visible. This is a cutting tool with two sharp blades that pivot against each other, used for cutting paper, fabric, or other materials."),
  ("teddy bear", "A teddy bear is detected. This is a soft stuffed toy designed to resemble a bear, commonly given to children for comfort and play."),
  ("hair drier", "A hair dryer is nearby. This is an electrical device that blows hot air to dry wet hair quickly after washing or styling."),
  ("toothbrush", "A toothbrush is present. This is a small brush with bristles used for cleaning teeth and maintaining oral hygiene, typically used with toothpaste.")]

/-- The getObjectDescription lookup, lines 153-238: the table entry for the
label, falling back to the generic templated sentence of line 237. -/
def getObjectDescription (label : String) : String :=
  match descriptions.lookup label with
  | some d => d
  | none => "A " ++ label ++ " is detected in your view. This object is part of your current environment and may require your attention."

/-- Coordinator state touched by the detection cycle: the speech channel's
state, the confidence useState (line 26, initial 0.5), the isPaused useState
(line 27), the previousDetectionsRef dedup set (line 241, a Set of labels kept
in insertion order) and the detections useState (line 22, what is displayed). -/
structure CoordState where
  speech : SpeechState
  confidence : ℚ
  isPaused : Bool
  tracker : List String
  detections : List Detection
  deriving DecidableEq

/-- Sampling period of the detection interval, line 402. -/
def SAMPLE_INTERVAL_MS : Nat := 1500

/-- Dwell timeout of the new-detection branch, line 354: 3 minutes. -/
def RESUME_LONG_MS : Nat := 180000

/-- Timeout of the no-new-detection branch, line 359: 10 seconds. -/
def RESUME_SHORT_MS : Nat := 10000

/-- Actions of the setTimeout callbacks scheduled by detectObjects.
resumeLong (lines 347-354) un-pauses, speaks the resuming announcement and
deletes the given labels from the dedup set; resumeShort (lines 357-359) only
un-pauses. -/
inductive TimerAction
  | resumeLong : List String → TimerAction
  | resumeShort : TimerAction
  deriving DecidableEq

/-- Adding a label to the previousDetectionsRef Set (line 343): a JS Set add
appends the element unless it is already present. -/
def trackerAdd (t : List String) (l : String) : List String :=
  if l ∈ t then t else t ++ [l]

/-- The confidence filter of a detection cycle, lines 309-311 (and 374-376):
keeps the detections whose score is at least the threshold. -/
def filterByConfidence (c : ℚ) (results : List Detection) : List Detection :=
  results.filter (fun d => decide (d.score ≥ c))

/-- The newDetections computation of lines 325-327: the confidence-filtered
detections whose label is not in the previousDetectionsRef set. -/
def newDetectionsOf (c : ℚ) (tracker : List String) (results : List Detection) : List Detection :=
  (filterByConfidence c results).filter (fun d => !(decide (d.label ∈ tracker)))

/-- Result of one run of detectObjects: the updated coordinator state, the
utterances actually started (handed to speechSynthesis.speak), the timers
scheduled (delay in ms, action), the labels covered by the synthesized
announcement of this cycle (the labels of newDetections.slice(0, 3), empty in
every other branch), and how many pipeline calls the run made. -/
structure CycleOutput where
  state : CoordState
  announced : List String
  timers : List (Nat × TimerAction)
  synthLabels : List String
  detectCalls : Nat
  deriving DecidableEq

/-- Body of detectObjects after the await point, lines 302-386.  The primary
argument is the settled result of the pipeline call on the canvas (line 307,
Except.error for a throw/reject); on primary failure the fallback argument is
the settled result of the one retry on the JPEG data URL (lines 370-382),
which updates only the displayed detections and never touches the speech,
pause or dedup state. -/
def detectContinue (s : CoordState) (primary fallback : Except Unit (List Detection)) : CycleOutput :=
  match primary with
  | .ok results =>
    let filteredResults := filterByConfidence s.confidence results
    let s1 : CoordState := { s with detections := filteredResults }
    if 0 < filteredResults.length ∧ s1.speech.speechEnabled = true then
      let s2 : CoordState := { s1 with isPaused := true }
      let newDetections := newDetectionsOf s.confidence s.tracker results
      if 0 < newDetections.length then
        let descs := (newDetections.take 3).map (fun d => getObjectDescription d.label)
        let fullDescription :=
          if descs.length = 1 then descs.headD ""
          else "I can see " ++ toString newDetections.length ++ " objects: " ++
            String.intercalate ". Also, " descs ++ "."
        let sp := speak s2.speech fullDescription
        let s3 : CoordState := { s2 with
          speech := sp.1,
          tracker := newDetections.foldl (fun t d => trackerAdd t d.label) s2.tracker }
        { state := s3,
          announced := sp.2,
          timers := [(RESUME_LONG_MS, TimerAction.resumeLong (newDetections.map (fun d => d.label)))],
          synthLabels := (newDetections.take 3).map (fun d => d.label),
          detectCalls := 1 }
      else
        { state := s2,
          announced := [],
          timers := [(RESUME_SHORT_MS, TimerAction.resumeShort)],
          synthLabels := [], detectCalls := 1 }
    else if filteredResults.length = 0 then
      { state := { s1 with tracker := [], isPaused := false },
        announced := [], timers := [],
        synthLabels := [], detectCalls := 1 }
    else
      { state := s1, announced := [], timers := [], synthLabels := [], detectCalls := 1 }
  | .error _ =>
    let s1 : CoordState := { s with isPaused := false }
    match fallback with
    | .ok results2 =>
      let filteredResults := filterByConfidence s1.confidence results2
      { state := { s1 with detections := filteredResults },
        announced := [], timers := [],
        synthLabels := [], detectCalls := 2 }
    | .error _ =>
      { state := s1, announced := [], timers := [], synthLabels := [], detectCalls := 2 }

/-- One run of detectObjects, lines 289-387.  refsReady is the conjunction of
the line-290 ref guards (pipeline_, videoRef, canvasRef all non-null);
frameReady is the line-296 guard (2d context available and nonzero video
dimensions); either guard failing, or isPaused being set, returns without any
effect. -/
def detectObjects (refsReady frameReady : Bool) (s : CoordState)
    (primary fallback : Except Unit (List Detection)) : CycleOutput :=
  if !refsReady || s.isPaused then
    { state := s, announced := [], timers := [], synthLabels := [], detectCalls := 0 }
  else if !frameReady then
    { state := s, announced := [], timers := [], synthLabels := [], detectCalls := 0 }
  else detectContinue s primary fallback

/-- Initial values of the component's hooks: speechEnabled true (line 25),
isSpeaking false (line 21), lastSpokenRef the empty string (line 35),
confidence 0.5 (line 26), isPaused false (line 27), empty dedup set (line 241)
and no detections (line 22). -/
def freshCoord : CoordState :=
  { speech := { speechEnabled := true, isSpeaking := false, lastSpoken := "" },
    confidence := mkRat 1 2, isPaused := false, tracker := [], detections := [] }

/-- Whole-session state for the timer analysis: the coordinator state, the
isDetecting useState (line 20), whether the sampling interval of line 402 is
installed, the pending setTimeout callbacks with their absolute fire times,
the current time in ms, and the log of every utterance started so far. -/
structure SysState where
  coord : CoordState
  isDetecting : Bool
  intervalActive : Bool
  pendingTimers : List (Nat × TimerAction)
  now : Nat
  log : List String
  deriving DecidableEq

/-- One firing of the sampling interval (line 402): when the interval is
installed, run detectObjects and register its setTimeouts at their absolute
fire times; a cleared interval fires nothing. -/
def tick (refsReady frameReady : Bool) (s : SysState)
    (primary fallback : Except Unit (List Detection)) : SysState :=
  if s.intervalActive then
    let o := detectObjects refsReady frameReady s.coord primary fallback
    { s with
      coord := o.state,
      log := s.log ++ o.announced,
      pendingTimers := s.pendingTimers ++ o.timers.map (fun t => (s.now + t.1, t.2)) }
  else s

/-- Firing of one scheduled setTimeout callback.  The 180000 ms callback
(lines 347-354) sets isPaused false, speaks the resuming announcement and
deletes each of its labels from the previousDetectionsRef set; the 10000 ms
callback (lines 357-359) sets isPaused false. -/
def fireTimer (s : SysState) (a : TimerAction) : SysState :=
  match a with
  | .resumeLong labels =>
    let c1 : CoordState := { s.coord with isPaused := false }
    let sp := speak c1.speech "Resuming object detection scan."
    let c2 : CoordState := { c1 with
      speech := sp.1,
      tracker := c1.tracker.filter (fun l => !(decide (l ∈ labels))) }
    { s with coord := c2, log := s.log ++ sp.2 }
  | .resumeShort =>
    { s with coord := { s.coord with isPaused := false } }

/-- Advancing the clock to time t: every pending setTimeout whose fire time
has been reached runs, in registration order; the rest stay pending. -/
def runDue (s : SysState) (t : Nat) : SysState :=
  let due := s.pendingTimers.filter (fun p => decide (p.1 ≤ t))
  let rest := s.pendingTimers.filter (fun p => !(decide (p.1 ≤ t)))
  due.foldl (fun st p => fireTimer st p.2) { s with pendingTimers := rest, now := t }

/-- The stop branch of toggleDetection, lines 404-411: clears isDetecting,
clears the sampling interval (clearInterval on intervalRef) and speaks the
stopped announcement.  The source keeps no handles to the setTimeouts
scheduled by detectObjects, so pendingTimers is untouched. -/
def stopDetection (s : SysState) : SysState :=
  let sp := speak s.coord.speech "Object detection stopped."
  { s with
    isDetecting := false,
    intervalActive := false,
    coord := { s.coord with speech := sp.1 },
    log := s.log ++ sp.2 }

/-- The active utterance finishing successfully with its grace window elapsed:
onend (lines 90-95) clears the speaking flag and, 2000 ms later, the
last-spoken memo. -/
def sysUtteranceDone (s : SysState) : SysState :=
  { s with coord := { s.coord with speech := (completeUtterance s.coord.speech .success).2 } }

/-- Session state for the in-flight analysis of the async detectObjects: the
coordinator state and how many pipeline calls have been started but have not
settled. -/
structure AsyncSys where
  coord : CoordState
  inFlight : Nat
  deriving DecidableEq

/-- The synchronous guard detectObjects evaluates before its await point
(lines 290-296): refs present, not paused, frame usable.  This is the only
gate between an interval firing and a new pipeline call being started; the
source keeps no in-flight flag. -/
def tickStartGuard (refsReady frameReady : Bool) (c : CoordState) : Bool :=
  refsReady && !c.isPaused && frameReady

/-- An interval firing in the async model: when the guard passes, a new
pipeline call starts (line 307) and is in flight until it settles; the
coordinator state is untouched until then. -/
def asyncTick (refsReady frameReady : Bool) (s : AsyncSys) : AsyncSys :=
  if tickStartGuard refsReady frameReady s.coord then
    { s with inFlight := s.inFlight + 1 }
  else s

/-- A pipeline call settling in the async model: the rest of detectObjects
(lines 302-386) runs on the current state. -/
def asyncSettle (s : AsyncSys) (primary fallback : Except Unit (List Detection)) : AsyncSys :=
  { coord := (detectContinue s.coord primary fallback).state, inFlight := s.inFlight - 1 }

/-- Decides whether the character list need occurs contiguously in hay. -/
def charSeqOccurs (need : List Char) : List Char → Bool
  | [] => need.isEmpty
  | c :: cs => need.isPrefixOf (c :: cs) || charSeqOccurs need cs

/-- Decides whether need occurs as a substring of hay. -/
def strContains (hay need : String) : Bool :=
  charSeqOccurs need.data hay.data

/-- Sorted insertion by descending score, used only to state the spec's
confidence-order tie-break policy. -/
def insertByScore (d : Detection) : List Detection → List Detection
  | [] => [d]
  | e :: es => if d.score ≥ e.score then d :: e :: es else e :: insertByScore d es

/-- Detections sorted by descending score, used only to state the spec's
confidence-order tie-break policy. -/
def sortByScoreDesc (ds : List Detection) : List Detection :=
  ds.foldr insertByScore []

/-- Modelled from the spec: the tie-break policy of spec section 4.1, announce
at most the top-N labels by confidence order; stated here only to compare the
source's behaviour against it. -/
def specTopByConfidence (n : Nat) (ds : List Detection) : List String :=
  ((sortByScoreDesc ds).take n).map (fun d => d.label)

/-- A unit box for concrete scenario inputs. -/
def box0 : Box := { xmin := 0, ymin := 0, xmax := 1, ymax := 1 }

/-- Concrete detection of the spec's dog scenario. -/
def dogDet : Detection := { label := "dog", score := mkRat 8 10, box := box0 }

/-- Concrete detection of the spec's person scenario. -/
def personDet : Detection := { label := "person", score := mkRat 9 10, box := box0 }

/-- Concrete detection of the spec's chair scenario. -/
def chairDet : Detection := { label := "chair", score := mkRat 3 10, box := box0 }

/-- First of two consecutive cycles that both detect the dog at score 0.8,
starting from the initial component state. -/
def dogCycle1 : CycleOutput := detectObjects true true freshCoord (.ok [dogDet]) (.ok [])

/-- Second of the two consecutive dog cycles, run on the state the first one
left behind. -/
def dogCycle2 : CycleOutput := detectObjects true true dogCycle1.state (.ok [dogDet]) (.ok [])

/-- The person-and-chair scenario cycle of the spec, from the initial state. -/
def personChairCycle : CycleOutput :=
  detectObjects true true freshCoord (.ok [personDet, chairDet]) (.ok [])

/-- Four qualifying detections in the order the detector returned them; the
highest score (car, 0.95) arrives last. -/
def fourNewResults : List Detection := [
  { label := "bottle", score := mkRat 6 10, box := box0 },
  { label := "dog", score := mkRat 9 10, box := box0 },
  { label := "cat", score := mkRat 7 10, box := box0 },
  { label := "car", score := mkRat 95 100, box := box0 }]

/-- Cycle on the four qualifying detections, from the initial state. -/
def fourNewCycle : CycleOutput := detectObjects true true freshCoord (.ok fourNewResults) (.ok [])

/-- Session right after detection started (toggleDetection start branch, lines
401-402): detecting, interval installed, clock at 0. -/
def runStart : SysState :=
  { coord := freshCoord, isDetecting := true, intervalActive := true,
    pendingTimers := [], now := 0, log := [] }

/-- The first sampling tick detects the dog: it is announced, the coordinator
pauses and the 180000 ms resume callback is scheduled. -/
def runAfterCycle : SysState := tick true true runStart (.ok [dogDet]) (.ok [])

/-- The dog utterance finishes, the clock reaches 3000 ms and the user stops
detection while the resume callback is still pending. -/
def runAfterStop : SysState := stopDetection (runDue (sysUtteranceDone runAfterCycle) 3000)

/-- The stopped utterance finishes and the clock advances past the pending
resume callback's fire time of 180000 ms. -/
def runFinal : SysState := runDue (sysUtteranceDone runAfterStop) 180000

/-- Claim C3: a call to speak made while an utterance is in flight, or with
text equal to the immediately preceding spoken text, is a no-op: the speech
state (speaking flag and last-spoken memo included) is returned unchanged and
no utterance starts; the text is dropped, not queued (the embedding has no
queue because the source keeps none). -/
theorem speak_noop_when_busy_or_duplicate (sp : SpeechState) (text : String)
    (h : sp.isSpeaking = true ∨ text = sp.lastSpoken) :
    speak sp text = (sp, []) := by
  rcases h with h | h
  · simp [speak, h]
  · unfold speak
    split
    · rfl
    · simp [h]

/-- Witness for claim C3: a concrete busy channel drops a new text
unchanged. -/
theorem speak_noop_when_busy_or_duplicate_witness :
    (({ speechEnabled := true, isSpeaking := true, lastSpoken := "" } : SpeechState).isSpeaking = true ∨
      "hello" = ({ speechEnabled := true, isSpeaking := true, lastSpoken := "" } : SpeechState).lastSpoken) ∧
    speak { speechEnabled := true, isSpeaking := true, lastSpoken := "" } "hello" =
      ({ speechEnabled := true, isSpeaking := true, lastSpoken := "" }, []) :=
  ⟨Or.inl rfl, speak_noop_when_busy_or_duplicate _ "hello" (Or.inl rfl)⟩

/-- Claim C4 counterexample: when the "Hello there" utterance completes by
failure, the channel still holds "Hello there" as the last-spoken memo even
after the grace window, and a later call with the identical text is dropped -
contradicting the claim that on completion by failure the memo is cleared
after the grace window so identical text can be announced again. -/
theorem speech_error_keeps_memo_counterexample :
    (completeUtterance (speak freshCoord.speech "Hello there").1 .failure).2.lastSpoken
      = "Hello there" ∧
    (completeUtterance (speak freshCoord.speech "Hello there").1 .failure).2.lastSpoken ≠ "" ∧
    speak (completeUtterance (speak freshCoord.speech "Hello there").1 .failure).2 "Hello there"
      = ((completeUtterance (speak freshCoord.speech "Hello there").1 .failure).2, []) := by
  exact ⟨rfl, by decide, rfl⟩

/-- Claim C4 amended: on completion the channel always clears its
currently-speaking flag, by success and by failure alike; the last-spoken memo
is cleared after the 2000 ms grace window only when the utterance completed
successfully, and is left unchanged when it failed. -/
theorem speech_completion_clears_flag (sp : SpeechState) (o : SpeechOutcome) :
    (completeUtterance sp o).1.isSpeaking = false ∧
    (completeUtterance sp o).1.lastSpoken = sp.lastSpoken ∧
    (completeUtterance sp SpeechOutcome.success).2.isSpeaking = false ∧
    (completeUtterance sp SpeechOutcome.success).2.lastSpoken = "" ∧
    (completeUtterance sp SpeechOutcome.failure).2.lastSpoken = sp.lastSpoken ∧
    GRACE_MS = 2000 := by
  cases o <;> exact ⟨rfl, rfl, rfl, rfl, rfl, rfl⟩

/-- Claim C5: a successful cycle keeps exactly the detections whose score is
at least the confidence threshold; concretely, on person 0.9 and chair 0.3 at
the default threshold 0.5 from the initial state, the filtered set is exactly
the person detection, the coordinator speaks exactly one announcement whose
text contains person, transitions to the paused Holding state and tracks
person, while chair enters neither the announcement, nor the tracker, nor the
scheduled dwell timer. -/
theorem cycle_filters_by_confidence (s : CoordState) (rs : List Detection)
    (f : Except Unit (List Detection)) (hp : s.isPaused = false) :
    (detectObjects true true s (Except.ok rs) f).state.detections
        = filterByConfidence s.confidence rs ∧
    filterByConfidence freshCoord.confidence [personDet, chairDet] = [personDet] ∧
    personChairCycle.announced = [getObjectDescription "person"] ∧
    strContains (getObjectDescription "person") "person" = true ∧
    personChairCycle.state.isPaused = true ∧
    personChairCycle.state.tracker = ["person"] ∧
    personChairCycle.timers = [(RESUME_LONG_MS, TimerAction.resumeLong ["person"])] := by
  refine ⟨?_, by decide, by decide, by decide, by decide, by decide, by decide⟩
  have hg : detectObjects true true s (Except.ok rs) f = detectContinue s (Except.ok rs) f := by
    unfold detectObjects
    simp [hp]
  rw [hg]
  unfold detectContinue
  dsimp only
  split
  · split <;> rfl
  · split <;> rfl

/-- Witness for claim C5 at the initial state and the person-chair input. -/
theorem cycle_filters_by_confidence_witness :
    freshCoord.isPaused = false ∧
    ((detectObjects true true freshCoord (Except.ok [personDet, chairDet]) (Except.ok [])).state.detections
        = filterByConfidence freshCoord.confidence [personDet, chairDet] ∧
    filterByConfidence freshCoord.confidence [personDet, chairDet] = [personDet] ∧
    personChairCycle.announced = [getObjectDescription "person"] ∧
    strContains (getObjectDescription "person") "person" = true ∧
    personChairCycle.state.isPaused = true ∧
    personChairCycle.state.tracker = ["person"] ∧
    personChairCycle.timers = [(RESUME_LONG_MS, TimerAction.resumeLong ["person"])]) :=
  ⟨rfl, cycle_filters_by_confidence freshCoord [personDet, chairDet] (Except.ok []) rfl⟩

/-- Claim C6: a successful cycle whose filtered detection set is empty clears
the dedup tracker, leaves the coordinator un-paused (Sampling), announces
nothing and schedules nothing; and a second empty cycle run on the resulting
state is a no-op on it (clearing an already-empty tracker changes nothing), so
repeated empty cycles are idempotent. -/
theorem empty_cycle_clears_tracker (s : CoordState) (rs : List Detection)
    (f : Except Unit (List Detection)) (hp : s.isPaused = false)
    (hempty : filterByConfidence s.confidence rs = []) :
    (detectObjects true true s (Except.ok rs) f).state.tracker = [] ∧
    (detectObjects true true s (Except.ok rs) f).state.isPaused = false ∧
    (detectObjects true true s (Except.ok rs) f).announced = [] ∧
    (detectObjects true true s (Except.ok rs) f).timers = [] ∧
    detectObjects true true (detectObjects true true s (Except.ok rs) f).state (Except.ok rs) f
      = detectObjects true true s (Except.ok rs) f := by
  have h1 : detectObjects true true s (Except.ok rs) f =
      { state := { s with detections := [], tracker := [], isPaused := false },
        announced := [], timers := [], synthLabels := [], detectCalls := 1 } := by
    unfold detectObjects detectContinue
    simp [hp, hempty]
  rw [h1]
  refine ⟨rfl, rfl, rfl, rfl, ?_⟩
  unfold detectObjects detectContinue
  simp [hempty]

/-- Witness for claim C6: the initial state with a below-threshold chair
detection. -/
theorem empty_cycle_clears_tracker_witness :
    freshCoord.isPaused = false ∧
    filterByConfidence freshCoord.confidence [chairDet] = [] ∧
    ((detectObjects true true freshCoord (Except.ok [chairDet]) (Except.ok [])).state.tracker = [] ∧
    (detectObjects true true freshCoord (Except.ok [chairDet]) (Except.ok [])).state.isPaused = false ∧
    (detectObjects true true freshCoord (Except.ok [chairDet]) (Except.ok [])).announced = [] ∧
    (detectObjects true true freshCoord (Except.ok [chairDet]) (Except.ok [])).timers = [] ∧
    detectObjects true true (detectObjects true true freshCoord (Except.ok [chairDet]) (Except.ok [])).state
        (Except.ok [chairDet]) (Except.ok [])
      = detectObjects true true freshCoord (Except.ok [chairDet]) (Except.ok [])) :=
  ⟨rfl, by decide, empty_cycle_clears_tracker freshCoord [chairDet] (Except.ok []) rfl (by decide)⟩

/-- Claim C7: when the primary detect call fails, the coordinator does not
transition state: it stays un-paused (Sampling), keeps its tracker and speech
state, announces and schedules nothing, and makes exactly one fallback
pipeline call for that tick (two calls in total); when the fallback succeeds
the displayed detections are its filtered results, so a cycle that throws once
and succeeds on the retry leaves the coordinator in Sampling with a defined
result - no crash. -/
theorem failed_cycle_stays_sampling (s : CoordState)
    (f : Except Unit (List Detection)) (hp : s.isPaused = false) :
    (detectObjects true true s (Except.error ()) f).state.isPaused = false ∧
    (detectObjects true true s (Except.error ()) f).state.tracker = s.tracker ∧
    (detectObjects true true s (Except.error ()) f).state.speech = s.speech ∧
    (detectObjects true true s (Except.error ()) f).announced = [] ∧
    (detectObjects true true s (Except.error ()) f).timers = [] ∧
    (detectObjects true true s (Except.error ()) f).detectCalls = 2 ∧
    (∀ rs2, f = Except.ok rs2 →
      (detectObjects true true s (Except.error ()) f).state.detections
        = filterByConfidence s.confidence rs2) := by
  have hg : detectObjects true true s (Except.error ()) f = detectContinue s (Except.error ()) f := by
    unfold detectObjects
    simp [hp]
  rw [hg]
  cases f with
  | ok rs2 =>
    refine ⟨rfl, rfl, rfl, rfl, rfl, rfl, ?_⟩
    intro rs3 hr
    injection hr with hr
    subst hr
    rfl
  | error e =>
    refine ⟨rfl, rfl, rfl, rfl, rfl, rfl, ?_⟩
    intro rs3 hr
    exact absurd hr (by simp)

/-- Witness for claim C7: initial state, failing primary call, person-only
fallback. -/
theorem failed_cycle_stays_sampling_witness :
    freshCoord.isPaused = false ∧
    ((detectObjects true true freshCoord (Except.error ()) (Except.ok [personDet])).state.isPaused = false ∧
    (detectObjects true true freshCoord (Except.error ()) (Except.ok [personDet])).state.tracker = freshCoord.tracker ∧
    (detectObjects true true freshCoord (Except.error ()) (Except.ok [personDet])).state.speech = freshCoord.speech ∧
    (detectObjects true true freshCoord (Except.error ()) (Except.ok [personDet])).announced = [] ∧
    (detectObjects true true freshCoord (Except.error ()) (Except.ok [personDet])).timers = [] ∧
    (detectObjects true true freshCoord (Except.error ()) (Except.ok [personDet])).detectCalls = 2 ∧
    (∀ rs2, (Except.ok [personDet] : Except Unit (List Detection)) = Except.ok rs2 →
      (detectObjects true true freshCoord (Except.error ()) (Except.ok [personDet])).state.detections
        = filterByConfidence freshCoord.confidence rs2)) :=
  ⟨rfl, failed_cycle_stays_sampling freshCoord (Except.ok [personDet]) rfl⟩

/-- Claim C10: with speech disabled, a successful cycle with a non-empty
filtered set only updates the displayed detections: the speech, pause and
tracker state are untouched, no announcement is synthesized and no timer is
scheduled - the dedup and pause machinery runs only while speech is
enabled. -/
theorem speech_disabled_cycle_frame (s : CoordState) (rs : List Detection)
    (f : Except Unit (List Detection)) (hsp : s.speech.speechEnabled = false)
    (hp : s.isPaused = false) (hne : filterByConfidence s.confidence rs ≠ []) :
    (detectObjects true true s (Except.ok rs) f).state
        = { s with detections := filterByConfidence s.confidence rs } ∧
    (detectObjects true true s (Except.ok rs) f).announced = [] ∧
    (detectObjects true true s (Except.ok rs) f).timers = [] ∧
    (detectObjects true true s (Except.ok rs) f).synthLabels = [] := by
  have h1 : detectObjects true true s (Except.ok rs) f =
      { state := { s with detections := filterByConfidence s.confidence rs },
        announced := [], timers := [], synthLabels := [], detectCalls := 1 } := by
    unfold detectObjects detectContinue
    simp [hp, hsp, List.length_eq_zero, hne]
  rw [h1]
  exact ⟨rfl, rfl, rfl, rfl⟩

/-- Witness for claim C10: speech disabled, person detection above
threshold. -/
theorem speech_disabled_cycle_frame_witness :
    ({ freshCoord with speech := { freshCoord.speech with speechEnabled := false } } : CoordState).speech.speechEnabled = false ∧
    ({ freshCoord with speech := { freshCoord.speech with speechEnabled := false } } : CoordState).isPaused = false ∧
    filterByConfidence ({ freshCoord with speech := { freshCoord.speech with speechEnabled := false } } : CoordState).confidence [personDet] ≠ [] ∧
    ((detectObjects true true { freshCoord with speech := { freshCoord.speech with speechEnabled := false } } (Except.ok [personDet]) (Except.ok [])).state
        = { ({ freshCoord with speech := { freshCoord.speech with speechEnabled := false } } : CoordState) with
            detections := filterByConfidence ({ freshCoord with speech := { freshCoord.speech with speechEnabled := false } } : CoordState).confidence [personDet] } ∧
    (detectObjects true true { freshCoord with speech := { freshCoord.speech with speechEnabled := false } } (Except.ok [personDet]) (Except.ok [])).announced = [] ∧
    (detectObjects true true { freshCoord with speech := { freshCoord.speech with speechEnabled := false } } (Except.ok [personDet]) (Except.ok [])).timers = [] ∧
    (detectObjects true true { freshCoord with speech := { freshCoord.speech with speechEnabled := false } } (Except.ok [personDet]) (Except.ok [])).synthLabels = []) :=
  ⟨rfl, rfl, by decide,
    speech_disabled_cycle_frame _ [personDet] (Except.ok []) rfl rfl (by decide)⟩

/-- Claim C2: a label present in the dedup tracker is never covered by the
announcement a cycle synthesizes, whatever the cycle's input; and concretely,
two consecutive cycles that both detect the dog at 0.8 from the initial state
produce exactly one dog announcement across both cycles (the second cycle
announces nothing and leaves the state untouched). -/
theorem dedup_no_reannounce (rr fr : Bool) (s : CoordState)
    (p f : Except Unit (List Detection)) (l : String) (h : l ∈ s.tracker) :
    l ∉ (detectObjects rr fr s p f).synthLabels ∧
    dogCycle1.announced = [getObjectDescription "dog"] ∧
    dogCycle2.announced = [] ∧
    dogCycle2.state = dogCycle1.state := by
  refine ⟨?_, by decide, by decide, by decide⟩
  intro hmem
  unfold detectObjects at hmem
  split at hmem
  · simp at hmem
  · split at hmem
    · simp at hmem
    · unfold detectContinue at hmem
      cases p with
      | error e => cases f <;> simp at hmem
      | ok rs =>
        dsimp only at hmem
        split at hmem
        · split at hmem
          · simp only [List.mem_map] at hmem
            obtain ⟨d, hd, hl⟩ := hmem
            have hd2 : d ∈ newDetectionsOf s.confidence s.tracker rs :=
              List.take_subset 3 _ hd
            unfold newDetectionsOf at hd2
            rw [List.mem_filter] at hd2
            have hnot : d.label ∉ s.tracker := by simpa using hd2.2
            exact hnot (by rwa [hl])
          · simp at hmem
        · split at hmem <;> simp at hmem

/-- Witness for claim C2: a state already tracking the dog never has the dog
among the labels a cycle announces. -/
theorem dedup_no_reannounce_witness :
    "dog" ∈ ({ freshCoord with tracker := ["dog"] } : CoordState).tracker ∧
    ("dog" ∉ (detectObjects true true { freshCoord with tracker := ["dog"] }
        (Except.ok [dogDet]) (Except.ok [])).synthLabels ∧
    dogCycle1.announced = [getObjectDescription "dog"] ∧
    dogCycle2.announced = [] ∧
    dogCycle2.state = dogCycle1.state) :=
  ⟨by decide,
    dedup_no_reannounce true true { freshCoord with tracker := ["dog"] }
      (Except.ok [dogDet]) (Except.ok []) "dog" (by decide)⟩

/-- Claim C8 counterexample: with four new qualifying detections arriving in
the order bottle 0.6, dog 0.9, cat 0.7, car 0.95, the synthesized announcement
covers bottle, dog and cat - the first three in detector output order - and
omits car, the highest-confidence label, whereas the claim's top-3 in
confidence order would be car, dog, cat. -/
theorem top3_confidence_counterexample :
    fourNewCycle.synthLabels = ["bottle", "dog", "cat"] ∧
    specTopByConfidence 3 (newDetectionsOf freshCoord.confidence freshCoord.tracker fourNewResults)
      = ["car", "dog", "cat"] ∧
    fourNewCycle.synthLabels ≠
      specTopByConfidence 3 (newDetectionsOf freshCoord.confidence freshCoord.tracker fourNewResults) ∧
    "car" ∉ fourNewCycle.synthLabels := by
  exact ⟨by decide, by decide, by decide, by decide⟩

/-- Claim C8 amended: when new labels qualify in a cycle, the synthesized
announcement covers at most 3 of them, namely the labels of the first three
qualifying new detections in the detector's output order (not sorted by
confidence). -/
theorem announce_first_three_new_labels (s : CoordState) (rs : List Detection)
    (f : Except Unit (List Detection)) (hp : s.isPaused = false)
    (hsp : s.speech.speechEnabled = true)
    (hnew : newDetectionsOf s.confidence s.tracker rs ≠ []) :
    (detectObjects true true s (Except.ok rs) f).synthLabels
      = ((newDetectionsOf s.confidence s.tracker rs).take 3).map (fun d => d.label) ∧
    (detectObjects true true s (Except.ok rs) f).synthLabels.length ≤ 3 := by
  have hfil : filterByConfidence s.confidence rs ≠ [] := by
    intro he
    apply hnew
    unfold newDetectionsOf
    rw [he]
    rfl
  have hlen : 0 < (filterByConfidence s.confidence rs).length := List.length_pos.mpr hfil
  have hnlen : 0 < (newDetectionsOf s.confidence s.tracker rs).length := List.length_pos.mpr hnew
  have h1 : (detectObjects true true s (Except.ok rs) f).synthLabels
      = ((newDetectionsOf s.confidence s.tracker rs).take 3).map (fun d => d.label) := by
    unfold detectObjects detectContinue
    simp [hp, hsp, hlen, hnlen]
  refine ⟨h1, ?_⟩
  rw [h1]
  simp only [List.length_map, List.length_take]
  omega

/-- Witness for claim C8 amended, at the four-detection input. -/
theorem announce_first_three_new_labels_witness :
    freshCoord.isPaused = false ∧
    freshCoord.speech.speechEnabled = true ∧
    newDetectionsOf freshCoord.confidence freshCoord.tracker fourNewResults ≠ [] ∧
    ((detectObjects true true freshCoord (Except.ok fourNewResults) (Except.ok [])).synthLabels
      = ((newDetectionsOf freshCoord.confidence freshCoord.tracker fourNewResults).take 3).map (fun d => d.label) ∧
    (detectObjects true true freshCoord (Except.ok fourNewResults) (Except.ok [])).synthLabels.length ≤ 3) :=
  ⟨rfl, rfl, by decide,
    announce_first_three_new_labels freshCoord fourNewResults (Except.ok []) rfl rfl (by decide)⟩

/-- Claim C9 counterexample: from the initial ready state with no pause in
effect, an interval firing starts a pipeline call, and a second interval
firing while that call is still unsettled starts a second concurrent call -
two calls are in flight, refuting the claim that a tick firing while a
previous cycle's detect call has not settled starts no second concurrent
call. -/
theorem single_inflight_counterexample :
    (asyncTick true true { coord := freshCoord, inFlight := 0 }).inFlight = 1 ∧
    (asyncTick true true (asyncTick true true { coord := freshCoord, inFlight := 0 })).inFlight = 2 := by
  exact ⟨rfl, rfl⟩

/-- Claim C9 amended: the only gate between an interval firing and a new
pipeline call is the synchronous guard of lines 290-296 (refs ready, frame
ready, not paused); the source keeps no in-flight flag, so whenever that guard
passes a tick starts one more pipeline call regardless of how many are already
in flight - at most one in-flight call is not guaranteed. -/
theorem tick_gated_only_by_pause (rr fr : Bool) (s : AsyncSys)
    (h : tickStartGuard rr fr s.coord = true) :
    (asyncTick rr fr s).inFlight = s.inFlight + 1 ∧
    (asyncTick rr fr s).coord = s.coord := by
  unfold asyncTick
  simp [h]

/-- Witness for claim C9 amended: with one call already in flight, a tick
brings the count to two. -/
theorem tick_gated_only_by_pause_witness :
    tickStartGuard true true ({ coord := freshCoord, inFlight := 1 } : AsyncSys).coord = true ∧
    ((asyncTick true true { coord := freshCoord, inFlight := 1 }).inFlight
        = ({ coord := freshCoord, inFlight := 1 } : AsyncSys).inFlight + 1 ∧
    (asyncTick true true { coord := freshCoord, inFlight := 1 }).coord
        = ({ coord := freshCoord, inFlight := 1 } : AsyncSys).coord) :=
  ⟨rfl, tick_gated_only_by_pause true true { coord := freshCoord, inFlight := 1 } rfl⟩

/-- Claim C1 (evidence of the code bug): the stop branch of toggleDetection
clears only the sampling interval; the resume timeout scheduled by the dog
cycle stays pending through the stop and, when the clock passes 180000 ms, its
callback still fires: it un-pauses the coordinator, removes dog from the dedup
tracker and speaks the resuming announcement - a state change, a tracker
mutation and an announcement after stop, which the claim (and the spec's
cancellation requirement) rule out. -/
theorem stale_resume_fires_after_stop :
    runAfterStop.isDetecting = false ∧
    runAfterStop.intervalActive = false ∧
    runAfterStop.pendingTimers = [(180000, TimerAction.resumeLong ["dog"])] ∧
    runAfterStop.coord.isPaused = true ∧
    runAfterStop.coord.tracker = ["dog"] ∧
    runFinal.log = runAfterStop.log ++ ["Resuming object detection scan."] ∧
    runFinal.coord.isPaused = false ∧
    runFinal.coord.tracker = [] ∧
    runFinal.pendingTimers = [] := by
  exact ⟨by decide, by decide, by decide, by decide, by decide, by decide, by decide,
    by decide, by decide⟩

end BlindVision
